import Mathlib

/-!
# InfoMark submission grading pipeline — verification of the specification

This file embeds the parts of the InfoMark backend that the specification's
claims are about, and proves (or refutes) each claim.

Two groups of definitions appear:

* Embeddings translated directly from the Go source files of the snapshot
  (the prometheus metrics registration in the `app` package, and the
  `AccountResource` handlers in `api/app/account.go`).

* Definitions whose doc comment starts with `Modelled from the spec:` —
  the grading pipeline proper (queue client, sandbox executor, result
  classifier, worker pool, result reporter) is described by the
  specification but its implementation is not part of the source snapshot,
  so those components are modelled faithfully from the specification text
  (sections 3, 4.2–4.5, 7 and 8 of the spec).
-/

namespace Infomark

/-! ## Grading pipeline data model (spec §3) -/

/-- Modelled from the spec: the test kind of a job descriptor,
`public` or `private` (spec §3, Job Descriptor). -/
inductive TestKind where
  | publicTests
  | privateTests
deriving DecidableEq, Repr

/-- Modelled from the spec: the immutable Job Descriptor (spec §3) —
one grading unit.  Fields irrelevant to the claims (image reference,
command, input bundle location, enqueue timestamp) are kept as plain
data so the descriptor stays a faithful record. -/
structure JobDescriptor where
  submissionID : Nat
  taskID : Nat
  kind : TestKind
  image : String
  command : String
  inputBundle : String
  cpuLimit : Nat
  memLimit : Nat
  /-- wall-clock limit, in whole time units (spec: seconds) -/
  timeLimit : Nat
deriving DecidableEq, Repr

/-- Modelled from the spec: the closed set of outcome variants
(spec §3, Outcome): `Passed`, `Failed(reason)`, `TimedOut`,
`InfraError(cause)`. -/
inductive Outcome where
  | Passed
  | Failed (reason : String)
  | TimedOut
  | InfraError (cause : String)
deriving DecidableEq, Repr

/-- Whether an outcome is the infra-error variant. -/
def Outcome.isInfraError : Outcome → Bool
  | .InfraError _ => true
  | _ => false

/-- Modelled from the spec: the Execution Result produced by the
Sandbox Executor (spec §3): exit code, size-capped captured output with
a truncation flag, wall-clock duration, a timeout flag and an optional
launch-error detail. -/
structure ExecutionResult where
  exitCode : Int
  stdout : String
  stderr : String
  truncated : Bool
  durationUnits : Nat
  timedOut : Bool
  launchError : Option String
deriving DecidableEq, Repr

/-! ## Result Classifier (spec §4.3) -/

/-- Modelled from the spec: diagnostic reason text derived from exit
code and output (spec §4.3: output is parsed "only for diagnostic
reason text", never for the pass/fail decision). -/
def failReason (exitCode : Int) (stdout stderr : String) : String :=
  "exit code " ++ toString exitCode ++ ": " ++ stdout ++ stderr

/-- Modelled from the spec: the Result Classifier (spec §4.3), a pure
function of the execution result.  The classification table, in order:
launch error ⇒ `InfraError(cause)`; executor reports timeout ⇒
`TimedOut`; exit code 0 ⇒ `Passed`; nonzero exit ⇒ `Failed(reason)`. -/
def classify (r : ExecutionResult) : Outcome :=
  match r.launchError with
  | some cause => .InfraError cause
  | none =>
    if r.timedOut then .TimedOut
    else if r.exitCode = 0 then .Passed
    else .Failed (failReason r.exitCode r.stdout r.stderr)

/-! ## Sandbox Executor (spec §4.2) -/

/-- Modelled from the spec: the fixed byte cap on captured output
(spec §4.2: "Captures stdout/stderr up to a fixed byte cap"). -/
def outputByteCap : Nat := 65536

/-- Modelled from the spec: the truncation marker appended when output
exceeds the cap ("excess is truncated with a marker, never causes
failure"). -/
def truncationMarker : String := "[truncated]"

/-- Modelled from the spec: capping one captured stream, returning the
possibly-truncated text and whether truncation happened. -/
def capOutput (s : String) : String × Bool :=
  if s.length ≤ outputByteCap then (s, false)
  else (s.take outputByteCap ++ truncationMarker, true)

/-- Modelled from the spec: the behaviour of one sandbox launch attempt,
as seen by the executor — either the isolation layer fails to launch
(`launchFailure = some cause`), or the program under test runs and would
exit at `procExitTime` with `procExitCode`, producing the given output. -/
structure SandboxEnv where
  launchFailure : Option String
  procExitTime : Nat
  procExitCode : Int
  procStdout : String
  procStderr : String
deriving DecidableEq, Repr

/-- Modelled from the spec: the small grace margin within which a
timed-out sandbox is guaranteed to be gone (spec §8: "bounded within a
small grace margin, e.g., deadline + 1s"). -/
def graceMargin : Nat := 1

/-- Modelled from the spec: what one `Run` leaves behind — the execution
result, the time at which the sandbox ceased to exist, and the cleanup
flag (spec §4.2: cleanup happens "on every exit path"). -/
structure RunRecord where
  result : ExecutionResult
  sandboxEndTime : Nat
  cleanedUp : Bool
deriving DecidableEq, Repr

/-- Modelled from the spec: `Run(job) -> (ExecutionResult, error)`
(spec §4.2).  A launch failure of the isolation layer yields a result
carrying the launch error; otherwise the program runs, and if it has
not exited by the wall-clock deadline the executor forcibly terminates
the sandbox at the deadline and reports a timeout. -/
def Run (job : JobDescriptor) (env : SandboxEnv) : RunRecord :=
  match env.launchFailure with
  | some cause =>
    ⟨⟨-1, "", "", false, 0, false, some cause⟩, 0, true⟩
  | none =>
    if env.procExitTime ≤ job.timeLimit then
      let outCap := capOutput env.procStdout
      let errCap := capOutput env.procStderr
      ⟨⟨env.procExitCode, outCap.1, errCap.1, outCap.2 || errCap.2,
        env.procExitTime, false, none⟩, env.procExitTime, true⟩
    else
      ⟨⟨-1, "", "", false, job.timeLimit, true, none⟩, job.timeLimit, true⟩

/-! ## Result Reporter and persisted record (spec §4.5, §6) -/

/-- Modelled from the spec: the key of a persisted record — "one row per
(submission, task, kind)" (spec §6). -/
structure ResultKey where
  submission : Nat
  task : Nat
  kind : TestKind
deriving DecidableEq, Repr

/-- Modelled from the spec: one persisted row — outcome, exit code,
truncated output, duration, attempt count (spec §6). -/
structure StoredResult where
  key : ResultKey
  outcome : Outcome
  exitCode : Int
  output : String
  durationUnits : Nat
  attempt : Nat
deriving DecidableEq, Repr

/-- The relational store of persisted results. -/
abbrev ResultStore := List StoredResult

/-- Whether the store already holds a record for a key. -/
def hasResult (store : ResultStore) (k : ResultKey) : Bool :=
  store.any fun rec => rec.key = k

/-- How many records the store holds for a key. -/
def countKey (store : ResultStore) (k : ResultKey) : Nat :=
  store.countP fun rec => decide (rec.key = k)

/-- Modelled from the spec: `Report(job, outcome)` persists the outcome
"exactly once (idempotent under redelivery: if a result for this job
attempt already exists, the call is a no-op)" (spec §4.5). -/
def Report (store : ResultStore) (rec : StoredResult) : ResultStore :=
  if hasResult store rec.key then store else rec :: store

/-- The persisted-record key of a job descriptor. -/
def JobDescriptor.resultKey (job : JobDescriptor) : ResultKey :=
  ⟨job.submissionID, job.taskID, job.kind⟩

/-- Modelled from the spec: the row built from a finished execution
(spec §6: outcome, exit code, truncated output, duration, attempt). -/
def mkGradeRecord (job : JobDescriptor) (res : ExecutionResult)
    (o : Outcome) (attempt : Nat) : StoredResult :=
  ⟨job.resultKey, o, res.exitCode, res.stdout ++ res.stderr,
    res.durationUnits, attempt⟩

/-! ## Worker delivery handling (spec §4.4, §7) -/

/-- Modelled from the spec: the observable per-delivery events whose
order §4.4 constrains — executing the sandbox, the durable persistence
write, and the queue acknowledgment. -/
inductive Event where
  | execute
  | persist
  | ackDelivery
deriving DecidableEq, Repr

/-- Modelled from the spec: what handling one delivery leaves behind —
the store, the ordered event trace, and whether the delivery was
acknowledged. -/
structure DeliveryResult where
  store : ResultStore
  trace : List Event
  acked : Bool
deriving DecidableEq, Repr

/-- Modelled from the spec: a worker handling one delivery of a job
with a terminal outcome (spec §4.4): execute, classify, dispatch to the
Result Reporter, "then acknowledge the delivery only after the Result
Reporter has durably recorded the outcome".  `persistOk = false` is the
`PersistenceError` case of §7: the write fails, so the delivery is not
acknowledged and the job will be redelivered. -/
def handleDelivery (job : JobDescriptor) (env : SandboxEnv)
    (persistOk : Bool) (store : ResultStore) (attempt : Nat) : DeliveryResult :=
  let rr := Run job env
  let o := classify rr.result
  if persistOk then
    ⟨Report store (mkGradeRecord job rr.result o attempt),
      [.execute, .persist, .ackDelivery], true⟩
  else
    ⟨store, [.execute], false⟩

/-! ## Worker Pool retry loop (spec §4.4, §3 Retry State) -/

/-- Modelled from the spec: the final fate of a job — either a terminal,
student-visible grade, or an operator-facing permanent infra failure
after retry exhaustion (spec §7: "`InfraError` is never shown to the
student"). -/
inductive FinalStatus where
  | graded (o : Outcome)
  | permanentInfraFailure (cause : String)
deriving DecidableEq, Repr

/-- Modelled from the spec: the state a worker pool threads through a
job's attempts — the grade store, the operator-facing dead-letter list,
and the count of sandbox executions performed. -/
structure WorkerState where
  store : ResultStore
  deadLetters : List (JobDescriptor × String)
  executions : Nat
deriving DecidableEq, Repr

/-- Modelled from the spec: the worker pool's retry loop over one job
(spec §4.4).  `envs` gives the sandbox behaviour of each attempt,
`attempt` is the current attempt number and `fuel` the number of
retries still allowed.  A non-infra outcome is terminal: it is reported
once and the loop stops.  An `InfraError` either consumes one unit of
fuel and re-executes, or — fuel exhausted, i.e. the maximum attempt
count exceeded — dead-letters the job as a permanent infra failure. -/
def processAttempts (job : JobDescriptor) (envs : Nat → SandboxEnv) :
    Nat → Nat → WorkerState → FinalStatus × WorkerState
  | attempt, fuel, st =>
    let rr := Run job (envs attempt)
    match classify rr.result with
    | .InfraError cause =>
      match fuel with
      | 0 =>
        (.permanentInfraFailure cause,
          ⟨st.store, (job, cause) :: st.deadLetters, st.executions + 1⟩)
      | fuel' + 1 =>
        processAttempts job envs (attempt + 1) fuel'
          ⟨st.store, st.deadLetters, st.executions + 1⟩
    | .Passed =>
      (.graded .Passed,
        ⟨Report st.store (mkGradeRecord job rr.result .Passed attempt),
          st.deadLetters, st.executions + 1⟩)
    | .Failed reason =>
      (.graded (.Failed reason),
        ⟨Report st.store (mkGradeRecord job rr.result (.Failed reason) attempt),
          st.deadLetters, st.executions + 1⟩)
    | .TimedOut =>
      (.graded .TimedOut,
        ⟨Report st.store (mkGradeRecord job rr.result .TimedOut attempt),
          st.deadLetters, st.executions + 1⟩)

/-- Modelled from the spec: running a job under the configured maximum
attempt count (spec §4.4): attempts are numbered from 1, and at most
`maxAttempts` executions happen before the job is dead-lettered. -/
def runJob (job : JobDescriptor) (envs : Nat → SandboxEnv)
    (maxAttempts : Nat) (st : WorkerState) : FinalStatus × WorkerState :=
  processAttempts job envs 1 (maxAttempts - 1) st

/-! ## Metrics registry — translated from the prometheus counters of the
`app` package (src/unnamed/part_001) -/

/-- `prometheus.CounterOpts` as used by the package: metric namespace,
subsystem, name and help text. -/
structure CounterOpts where
  Namespace : String
  Subsystem : String
  Name : String
  Help : String
deriving DecidableEq, Repr

/-- A `prometheus.CounterVec`: counter options plus the label names the
vector is partitioned by. -/
structure CounterVec where
  opts : CounterOpts
  labelNames : List String
deriving DecidableEq, Repr

/-- `totalFailedLoginsVec`: namespace `auth`, subsystem `logins`, name
`failed_logins`, no labels. -/
def totalFailedLoginsVec : CounterVec :=
  ⟨⟨"auth", "logins", "failed_logins", "Total number of failed logins"⟩, []⟩

/-- `totalSubmissionCounterVec`: namespace `worker`, subsystem
`submissions`, name `pushed_total`, labeled by `task_id`. -/
def totalSubmissionCounterVec : CounterVec :=
  ⟨⟨"worker", "submissions", "pushed_total",
    "Total number of submissions pushed to the server"⟩, ["task_id"]⟩

/-- `totalDockerFailExitCounterVec`: namespace `worker`, subsystem
`submissions`, name `failed_total`, labeled by `task_id` and `kind`. -/
def totalDockerFailExitCounterVec : CounterVec :=
  ⟨⟨"worker", "submissions", "failed_total",
    "Total number of submissions where docker has unsuccessful exit status"⟩,
    ["task_id", "kind"]⟩

/-- `totalDockerSuccessExitCounterVec`: namespace `worker`, subsystem
`submissions`, name `success_total`, labeled by `task_id` and `kind`. -/
def totalDockerSuccessExitCounterVec : CounterVec :=
  ⟨⟨"worker", "submissions", "success_total",
    "Total number of submissions where docker has successful exit status"⟩,
    ["task_id", "kind"]⟩

/-- The collectors passed to `prometheus.MustRegister` by the package's
startup `init` function, in registration order. -/
def registeredCollectors : List CounterVec :=
  [totalSubmissionCounterVec, totalDockerFailExitCounterVec,
    totalDockerSuccessExitCounterVec, totalFailedLoginsVec]

/-- The fully-qualified metric name, as prometheus builds it from
non-empty namespace, subsystem and name parts joined by underscores. -/
def fullName (o : CounterOpts) : String :=
  o.Namespace ++ "_" ++ o.Subsystem ++ "_" ++ o.Name

/-- The exposed metrics surface: the fully-qualified name and label
names of every registered counter. -/
def metricsSurface : List (String × List String) :=
  registeredCollectors.map fun c => (fullName c.opts, c.labelNames)

/-- The operations the prometheus `Counter` type offers on a value:
`Inc` adds one, `Add` adds a non-negative amount — there is no
decreasing operation. -/
inductive CounterOp where
  | inc
  | add (n : Nat)
deriving DecidableEq, Repr

/-- Applying one counter operation to a counter value. -/
def applyCounterOp (v : Nat) : CounterOp → Nat
  | .inc => v + 1
  | .add n => v + n

/-- Applying a whole process-lifetime sequence of counter operations. -/
def applyCounterOps (v : Nat) (ops : List CounterOp) : Nat :=
  ops.foldl applyCounterOp v

/-! ## Account handlers — translated from `api/app/account.go` -/

/-- The user record (`model.User`).  The `model` package is not part of
the snapshot; the fields are the ones the account handlers read and
write: identity and profile fields, the confirm-email token
(`null.String`, hence `Option`), the encrypted password, the root flag
and the avatar URL. -/
structure User where
  id : Int
  firstName : String
  lastName : String
  email : String
  studentNumber : String
  semester : Int
  subject : String
  language : String
  confirmEmailToken : Option String
  encryptedPassword : String
  root : Bool
  avatarURL : Option String
deriving DecidableEq, Repr

/-- `CreateUserAccountRequest` is not part of the snapshot; the handler
reads `data.User.*` profile fields and
`data.Account.EncryptedPassword`.  The model carries a full user
payload — including adversarial `root` and `confirmEmailToken` values a
caller might supply — so that the theorems can say the handler ignores
them. -/
structure CreateUserAccountRequest where
  user : User
  accountEncryptedPassword : String
deriving DecidableEq, Repr

/-- Modelled from the spec: `auth.GenerateToken(length)` is not part of
the snapshot; per the handler ("We will ask the user to confirm their
email address") it returns a freshly generated random token of the
requested length.  The randomness source is made explicit as a stream
of numbers. -/
def tokenAlphabet : List Char :=
  "abcdefghijklmnopqrstuvwxyz0123456789".toList

/-- Modelled from the spec: token generation — one alphabet character
per position, drawn from the explicit randomness stream. -/
def GenerateToken (n : Nat) (rand : Nat → Nat) : String :=
  ⟨(List.range n).map fun i => tokenAlphabet.getD (rand i % 36) 'a'⟩

/-- `Stores.User.Get`: look a user up by id. -/
def storeGet (store : List User) (loginID : Int) : Option User :=
  store.find? fun u => u.id = loginID

/-- `Stores.User.Update`: replace the record with the same id. -/
def storeUpdate (store : List User) (u : User) : List User :=
  store.map fun v => if v.id = u.id then u else v

/-- The user record built by `AccountResource.CreateHandler`: profile
fields copied from the request, the confirm-email token freshly
generated with length 32, the encrypted password from the request's
account part, and `Root: false` — the request's own root flag and token
are never consulted. -/
def createHandlerUser (data : CreateUserAccountRequest)
    (rand : Nat → Nat) : User :=
  ⟨0, data.user.firstName, data.user.lastName, data.user.email,
    data.user.studentNumber, data.user.semester, data.user.subject,
    data.user.language, some (GenerateToken 32 rand),
    data.accountEncryptedPassword, false, none⟩

/-- What `CreateHandler` leaves behind: the store, the HTTP status and
the record handed to `Stores.User.Create` (if any). -/
structure CreateResponse where
  store : List User
  status : Nat
  created : Option User
deriving DecidableEq, Repr

/-- `AccountResource.CreateHandler` (account.go): a failed
`render.Bind` answers 400 Bad Request and touches nothing; otherwise
the handler builds the user record and creates it in the store,
answering 201 Created. -/
def CreateHandler (store : List User)
    (data : Option CreateUserAccountRequest) (rand : Nat → Nat) :
    CreateResponse :=
  match data with
  | none => ⟨store, 400, none⟩
  | some data =>
    let user := createHandlerUser data rand
    ⟨store ++ [user], 201, some user⟩

/-- `AccountRequest` is not part of the snapshot; the handler reads
`data.OldPlainPassword`, `data.Account.Email`,
`data.Account.PlainPassword` and `data.Account.EncryptedPassword`
(derived from the plain password during bind). -/
structure AccountRequest where
  accountEmail : String
  accountPlainPassword : String
  accountEncryptedPassword : String
  oldPlainPassword : String
deriving DecidableEq, Repr

/-- What `EditHandler` leaves behind: the store, the HTTP status, and
whether `Stores.User.Update` was invoked at all. -/
structure EditResult where
  store : List User
  status : Nat
  updateCalled : Bool
deriving DecidableEq, Repr

/-- `AccountResource.EditHandler` (account.go): loads the user of the
access claims (404 if absent), binds the PATCH body (400 on bind
failure), answers 400 Bad Request if `old_plain_password` is missing or
does not match the stored hash — all before any store write — then
applies the PATCH logic for email and password and only then invokes
`Update`.  `check` abstracts `auth.CheckPasswordHash` (not part of the
snapshot), `updateOk` whether the store write succeeds. -/
def EditHandler (check : String → String → Bool) (store : List User)
    (loginID : Int) (data : Option AccountRequest) (rand : Nat → Nat)
    (updateOk : Bool) : EditResult :=
  match storeGet store loginID with
  | none => ⟨store, 404, false⟩
  | some user =>
    match data with
    | none => ⟨store, 400, false⟩
    | some data =>
      if data.oldPlainPassword = "" then ⟨store, 400, false⟩
      else if check data.oldPlainPassword user.encryptedPassword = false then
        ⟨store, 400, false⟩
      else
        let emailHasChanged :=
          data.accountEmail != "" && data.accountEmail != user.email
        let passwordHasChanged := data.accountPlainPassword != ""
        let user1 :=
          if emailHasChanged then
            { user with confirmEmailToken := some (GenerateToken 32 rand),
                        email := data.accountEmail }
          else user
        let user2 :=
          if passwordHasChanged then
            { user1 with encryptedPassword := data.accountEncryptedPassword }
          else user1
        if updateOk then ⟨storeUpdate store user2, 204, true⟩
        else ⟨store, 500, true⟩

/-! ## Concrete sample data used by witnesses -/

/-- A concrete clean run with exit code 0, used as a witness input. -/
def samplePassRun : ExecutionResult :=
  ⟨0, "ok", "", false, 3, false, none⟩

/-- A concrete clean run with exit code 1 whose stdout even says "PASS",
used as a witness input. -/
def sampleFailRun : ExecutionResult :=
  ⟨1, "PASS", "", false, 3, false, none⟩

/-- A concrete job descriptor used as a witness input. -/
def sampleJob : JobDescriptor :=
  ⟨7, 4, .publicTests, "img", "run.sh", "bundle", 2, 512, 5⟩

/-- A concrete sandbox behaviour whose isolation layer always fails to
launch, used as a witness input. -/
def failingLaunchEnv : SandboxEnv :=
  ⟨some "docker daemon unreachable", 0, 0, "", ""⟩

/-- A concrete sandbox behaviour whose program exits cleanly within the
limit, used as a witness input. -/
def cleanEnv : SandboxEnv :=
  ⟨none, 3, 0, "ok", ""⟩

/-- A concrete sandbox behaviour whose program would run past the
deadline, used as a witness input. -/
def sleepyEnv : SandboxEnv :=
  ⟨none, 9, 0, "", ""⟩

/-- A concrete stored user, used as a witness input. -/
def sampleUser : User :=
  ⟨1, "Max", "Mustermann", "max@uni.de", "1234", 2, "CS", "en",
    none, "stored-hash", false, none⟩

/-- A concrete account-creation request that tries to smuggle in a root
flag and a pre-confirmed token, used as a witness input. -/
def adversarialCreateRequest : CreateUserAccountRequest :=
  ⟨⟨9, "Eve", "Adams", "eve@uni.de", "666", 1, "CS", "en",
    some "attacker-chosen-token", "attacker-hash", true, none⟩,
    "bound-hash"⟩

/-- A concrete PATCH body carrying a wrong old password, used as a
witness input. -/
def wrongPasswordEdit : AccountRequest :=
  ⟨"new@uni.de", "newpw", "new-hash", "wrong-old-password"⟩

/-- A concrete password-hash check used by witnesses: the plain
password matches exactly the stored hash text. -/
def sampleCheck (plain hash : String) : Bool :=
  plain == hash

end Infomark

/-! ## Theorems -/

namespace Infomark

/-- **C2.** The Result Classifier is a pure function of
(exit code, truncated flag, launch error): with no launch error and no
timeout, exit code 0 classifies as `Passed` and any nonzero exit code
classifies as `Failed(reason)`, regardless of the captured
stdout/stderr content. -/
theorem classifier_exit_code_anchored (r : ExecutionResult)
    (hl : r.launchError = none) (ht : r.timedOut = false) :
    (r.exitCode = 0 → classify r = .Passed) ∧
    (r.exitCode ≠ 0 → ∃ reason, classify r = .Failed reason) := by
  constructor
  · intro hz
    simp [classify, hl, ht, hz]
  · intro hnz
    exact ⟨failReason r.exitCode r.stdout r.stderr, by simp [classify, hl, ht, hnz]⟩

/-- Witness for C2: a concrete passing run and a concrete failing run. -/
theorem classifier_exit_code_anchored_witness :
    (samplePassRun.launchError = none ∧ classify samplePassRun = .Passed) ∧
    ∃ reason, classify sampleFailRun = .Failed reason := by
  refine ⟨⟨rfl, ?_⟩, ?_⟩
  · exact (classifier_exit_code_anchored samplePassRun rfl rfl).1 rfl
  · exact (classifier_exit_code_anchored sampleFailRun rfl rfl).2 (by decide)

/-- Shared lemma: a launch failure of the isolation layer always
classifies as `InfraError` with its cause. -/
theorem classify_Run_launchFailure (job : JobDescriptor) (env : SandboxEnv)
    (cause : String) (h : env.launchFailure = some cause) :
    classify (Run job env).result = .InfraError cause := by
  unfold Run
  rw [h]
  simp [classify]

/-- Shared lemma: a store with no record for a key counts zero records
for that key. -/
theorem countKey_zero_of_not_hasResult (store : ResultStore) (k : ResultKey)
    (h : hasResult store k = false) : countKey store k = 0 := by
  induction store with
  | nil => rfl
  | cons r t ih =>
    simp only [hasResult, List.any_cons, Bool.or_eq_false_iff] at h
    have ht : countKey t k = 0 := ih h.2
    simp only [countKey, List.countP_cons] at ht ⊢
    simp [h.1, ht]

/-- Shared lemma: after `Report`, the reported key is present. -/
theorem hasResult_Report (store : ResultStore) (rec : StoredResult) :
    hasResult (Report store rec) rec.key = true := by
  unfold Report
  cases h : hasResult store rec.key with
  | true => simpa using h
  | false => simp [hasResult]

/-- **C3.** `Report` is idempotent under redelivery: a repeated call for
the same (submission, task, kind) key is a no-op and creates no
duplicate — the store never holds more than one record per key. -/
theorem report_idempotent (s : ResultStore) (rec recRedeliver : StoredResult)
    (k : ResultKey) (hk : recRedeliver.key = rec.key)
    (h1 : countKey s k ≤ 1) :
    Report (Report s rec) recRedeliver = Report s rec ∧
    countKey (Report s rec) k ≤ 1 := by
  constructor
  · unfold Report
    cases h : hasResult s rec.key with
    | true => simp [h, hk]
    | false => simp [h, hk, hasResult]
  · unfold Report
    cases h : hasResult s rec.key with
    | true => simpa using h1
    | false =>
      simp only [Bool.false_eq_true, if_false, countKey, List.countP_cons]
      by_cases hrk : rec.key = k
      · have h0 : countKey s k = 0 :=
          countKey_zero_of_not_hasResult s k (hrk ▸ h)
        simp only [countKey] at h0
        simp [hrk, h0]
      · simpa [hrk] using h1

/-- Witness for C3: redelivering a concrete record to a concrete store
is a no-op and leaves at most one record for its key. -/
theorem report_idempotent_witness :
    Report (Report [] (mkGradeRecord sampleJob samplePassRun .Passed 1))
        (mkGradeRecord sampleJob samplePassRun .Passed 1) =
      Report [] (mkGradeRecord sampleJob samplePassRun .Passed 1) ∧
    countKey (Report [] (mkGradeRecord sampleJob samplePassRun .Passed 1))
      sampleJob.resultKey ≤ 1 :=
  report_idempotent [] (mkGradeRecord sampleJob samplePassRun .Passed 1)
    (mkGradeRecord sampleJob samplePassRun .Passed 1)
    sampleJob.resultKey rfl (by decide)

/-- **C4.** Acknowledgment happens only after the Result Reporter has
durably recorded the outcome: an acknowledged delivery has the trace
execute–persist–ack with the outcome present in the store, and on a
`PersistenceError` the delivery is never acknowledged and the store is
untouched, so the job is redelivered rather than lost. -/
theorem ack_only_after_persist (job : JobDescriptor) (env : SandboxEnv)
    (persistOk : Bool) (store : ResultStore) (attempt : Nat) :
    ((handleDelivery job env persistOk store attempt).acked = true →
      (handleDelivery job env persistOk store attempt).trace =
        [Event.execute, Event.persist, Event.ackDelivery] ∧
      hasResult (handleDelivery job env persistOk store attempt).store
        job.resultKey = true) ∧
    (persistOk = false →
      (handleDelivery job env persistOk store attempt).acked = false ∧
      Event.ackDelivery ∉ (handleDelivery job env persistOk store attempt).trace ∧
      (handleDelivery job env persistOk store attempt).store = store) := by
  cases persistOk with
  | false => simp [handleDelivery]
  | true =>
    refine ⟨fun _ => ⟨rfl, ?_⟩, by simp⟩
    exact hasResult_Report store
      (mkGradeRecord job (Run job env).result
        (classify (Run job env).result) attempt)

/-- Witness for C4: a concrete acknowledged delivery has the persist
event before the ack and the record stored; a concrete failed persist
is never acknowledged. -/
theorem ack_only_after_persist_witness :
    ((handleDelivery sampleJob cleanEnv true [] 1).trace =
        [Event.execute, Event.persist, Event.ackDelivery] ∧
      hasResult (handleDelivery sampleJob cleanEnv true [] 1).store
        sampleJob.resultKey = true) ∧
    ((handleDelivery sampleJob cleanEnv false [] 1).acked = false ∧
      Event.ackDelivery ∉ (handleDelivery sampleJob cleanEnv false [] 1).trace ∧
      (handleDelivery sampleJob cleanEnv false [] 1).store = []) :=
  ⟨(ack_only_after_persist sampleJob cleanEnv true [] 1).1 (by decide),
    (ack_only_after_persist sampleJob cleanEnv false [] 1).2 rfl⟩

/-- **C7.** A job whose process has not exited by the wall-clock
deadline is forcibly terminated: the executor reports a timeout, the
outcome classifies as `TimedOut`, and the sandbox is gone no later than
the deadline plus the small grace margin. -/
theorem timeout_forcibly_terminated (job : JobDescriptor) (env : SandboxEnv)
    (hl : env.launchFailure = none) (ht : job.timeLimit < env.procExitTime) :
    (Run job env).result.timedOut = true ∧
    classify (Run job env).result = .TimedOut ∧
    (Run job env).sandboxEndTime ≤ job.timeLimit + graceMargin := by
  unfold Run
  rw [hl]
  have hnle : ¬ env.procExitTime ≤ job.timeLimit := not_le.mpr ht
  simp [hnle, classify, graceMargin]

/-- Witness for C7: a concrete program sleeping past a 5-unit limit is
terminated at the deadline and graded `TimedOut`. -/
theorem timeout_forcibly_terminated_witness :
    sampleJob.timeLimit < sleepyEnv.procExitTime ∧
    ((Run sampleJob sleepyEnv).result.timedOut = true ∧
      classify (Run sampleJob sleepyEnv).result = .TimedOut ∧
      (Run sampleJob sleepyEnv).sandboxEndTime ≤
        sampleJob.timeLimit + graceMargin) :=
  ⟨by decide, timeout_forcibly_terminated sampleJob sleepyEnv rfl (by decide)⟩

/-- Shared lemma: an outcome flagged as infra error is an `InfraError`. -/
theorem Outcome.eq_infraError_of_isInfraError (o : Outcome)
    (h : o.isInfraError = true) : ∃ c, o = .InfraError c := by
  cases o <;> simp_all [Outcome.isInfraError]

/-- Shared lemma: one terminal (non-infra) classification ends the retry
loop at once, for any remaining fuel: the outcome is reported exactly
once and exactly one more execution happens. -/
theorem processAttempts_terminal (job : JobDescriptor) (envs : Nat → SandboxEnv)
    (attempt fuel : Nat) (st : WorkerState)
    (h : (classify (Run job (envs attempt)).result).isInfraError = false) :
    processAttempts job envs attempt fuel st =
      (.graded (classify (Run job (envs attempt)).result),
        ⟨Report st.store (mkGradeRecord job (Run job (envs attempt)).result
            (classify (Run job (envs attempt)).result) attempt),
          st.deadLetters, st.executions + 1⟩) := by
  cases hcl : classify (Run job (envs attempt)).result <;>
    simp_all [processAttempts, hcl, Outcome.isInfraError]

/-- Shared lemma: one infra-error classification with fuel left retries
at the next attempt, consuming one unit of fuel. -/
theorem processAttempts_retry (job : JobDescriptor) (envs : Nat → SandboxEnv)
    (attempt fuel : Nat) (st : WorkerState) (cause : String)
    (hcl : classify (Run job (envs attempt)).result = .InfraError cause) :
    processAttempts job envs attempt (fuel + 1) st =
      processAttempts job envs (attempt + 1) fuel
        ⟨st.store, st.deadLetters, st.executions + 1⟩ := by
  conv_lhs => rw [processAttempts]
  simp [hcl]

/-- Shared lemma: one infra-error classification with no fuel left
dead-letters the job. -/
theorem processAttempts_deadLetter (job : JobDescriptor) (envs : Nat → SandboxEnv)
    (attempt : Nat) (st : WorkerState) (cause : String)
    (hcl : classify (Run job (envs attempt)).result = .InfraError cause) :
    processAttempts job envs attempt 0 st =
      (.permanentInfraFailure cause,
        ⟨st.store, (job, cause) :: st.deadLetters, st.executions + 1⟩) := by
  conv_lhs => rw [processAttempts]
  simp [hcl]

/-- Shared lemma: `Report` of a non-infra record preserves the absence
of infra-error records in the store. -/
theorem report_grade_no_infra (st : ResultStore) (rec : StoredResult)
    (hrec : rec.outcome.isInfraError = false)
    (hst : ∀ r ∈ st, r.outcome.isInfraError = false) :
    ∀ r ∈ Report st rec, r.outcome.isInfraError = false := by
  intro r hr
  unfold Report at hr
  cases h : hasResult st rec.key with
  | true => rw [h] at hr; exact hst r (by simpa using hr)
  | false =>
    rw [h] at hr
    simp only [Bool.false_eq_true, if_false, List.mem_cons] at hr
    rcases hr with hr | hr
    · rw [hr]; exact hrec
    · exact hst r hr

/-- Shared lemma: the retry loop writes no infra-error record to the
grade store and never ends with an infra-error grade. -/
theorem processAttempts_no_infra (job : JobDescriptor) (envs : Nat → SandboxEnv) :
    ∀ fuel attempt st,
      (∀ r ∈ st.store, r.outcome.isInfraError = false) →
      (∀ r ∈ (processAttempts job envs attempt fuel st).2.store,
        r.outcome.isInfraError = false) ∧
      ∀ o, (processAttempts job envs attempt fuel st).1 = .graded o →
        o.isInfraError = false := by
  intro fuel
  induction fuel with
  | zero =>
    intro attempt st hst
    cases hi : (classify (Run job (envs attempt)).result).isInfraError with
    | false =>
      rw [processAttempts_terminal job envs attempt 0 st hi]
      refine ⟨report_grade_no_infra st.store _ hi hst, ?_⟩
      intro o ho
      cases ho
      exact hi
    | true =>
      obtain ⟨cause, hcl⟩ := Outcome.eq_infraError_of_isInfraError _ hi
      rw [processAttempts_deadLetter job envs attempt st cause hcl]
      exact ⟨hst, by intro o ho; cases ho⟩
  | succ fuel ih =>
    intro attempt st hst
    cases hi : (classify (Run job (envs attempt)).result).isInfraError with
    | false =>
      rw [processAttempts_terminal job envs attempt (fuel + 1) st hi]
      refine ⟨report_grade_no_infra st.store _ hi hst, ?_⟩
      intro o ho
      cases ho
      exact hi
    | true =>
      obtain ⟨cause, hcl⟩ := Outcome.eq_infraError_of_isInfraError _ hi
      rw [processAttempts_retry job envs attempt fuel st cause hcl]
      exact ih (attempt + 1) ⟨st.store, st.deadLetters, st.executions + 1⟩ hst

/-- **C1.** A launch failure of the isolation layer classifies as
`InfraError(cause)`, and an `InfraError` is never persisted as a
student-visible grade: the retry loop never stores an infra-error
record and never ends in an infra-error grade — an infra-error attempt
leads only to a retry (fuel left) or to the operator-facing permanent
infra failure (fuel exhausted). -/
theorem infraError_never_student_visible (job : JobDescriptor)
    (envs : Nat → SandboxEnv) (fuel attempt : Nat) (st : WorkerState)
    (hst : ∀ r ∈ st.store, r.outcome.isInfraError = false) :
    (∀ env cause, env.launchFailure = some cause →
      classify (Run job env).result = .InfraError cause) ∧
    (∀ r ∈ (processAttempts job envs attempt fuel st).2.store,
      r.outcome.isInfraError = false) ∧
    (∀ o, (processAttempts job envs attempt fuel st).1 = .graded o →
      o.isInfraError = false) ∧
    ∀ cause, classify (Run job (envs attempt)).result = .InfraError cause →
      processAttempts job envs attempt 0 st =
        (.permanentInfraFailure cause,
          ⟨st.store, (job, cause) :: st.deadLetters, st.executions + 1⟩) ∧
      ∀ f, processAttempts job envs attempt (f + 1) st =
        processAttempts job envs (attempt + 1) f
          ⟨st.store, st.deadLetters, st.executions + 1⟩ := by
  obtain ⟨h1, h2⟩ := processAttempts_no_infra job envs fuel attempt st hst
  refine ⟨fun env cause h => classify_Run_launchFailure job env cause h, h1, h2, ?_⟩
  intro cause hcl
  exact ⟨processAttempts_deadLetter job envs attempt st cause hcl,
    fun f => processAttempts_retry job envs attempt f st cause hcl⟩

/-- Witness for C1: with a concretely failing isolation layer, the
classifier yields the concrete `InfraError`, and a one-retry run from
an empty store yields no infra-error grade record. -/
theorem infraError_never_student_visible_witness :
    classify (Run sampleJob failingLaunchEnv).result =
      .InfraError "docker daemon unreachable" ∧
    processAttempts sampleJob (fun _ => failingLaunchEnv) 1 0 ⟨[], [], 0⟩ =
      (.permanentInfraFailure "docker daemon unreachable",
        ⟨[], [(sampleJob, "docker daemon unreachable")], 1⟩) := by
  have h := infraError_never_student_visible sampleJob
    (fun _ => failingLaunchEnv) 0 1 ⟨[], [], 0⟩ (by simp)
  exact ⟨h.1 failingLaunchEnv _ rfl,
    (h.2.2.2 "docker daemon unreachable" (h.1 failingLaunchEnv _ rfl)).1⟩

/-- **C5.** Only `InfraError` is ever retried: a `Passed`, `Failed` or
`TimedOut` classification is terminal — the loop stops at once with
that grade, performing exactly one execution and no re-publish. -/
theorem terminal_outcome_never_retried (job : JobDescriptor)
    (envs : Nat → SandboxEnv) (attempt fuel : Nat) (st : WorkerState)
    (h : (classify (Run job (envs attempt)).result).isInfraError = false) :
    processAttempts job envs attempt fuel st =
      (.graded (classify (Run job (envs attempt)).result),
        ⟨Report st.store (mkGradeRecord job (Run job (envs attempt)).result
            (classify (Run job (envs attempt)).result) attempt),
          st.deadLetters, st.executions + 1⟩) :=
  processAttempts_terminal job envs attempt fuel st h

/-- Witness for C5: a concrete clean run is graded immediately with a
single execution even though plenty of retry fuel remains. -/
theorem terminal_outcome_never_retried_witness :
    processAttempts sampleJob (fun _ => cleanEnv) 1 3 ⟨[], [], 0⟩ =
      (.graded (classify (Run sampleJob cleanEnv).result),
        ⟨Report [] (mkGradeRecord sampleJob (Run sampleJob cleanEnv).result
            (classify (Run sampleJob cleanEnv).result) 1), [], 1⟩) :=
  terminal_outcome_never_retried sampleJob (fun _ => cleanEnv) 1 3
    ⟨[], [], 0⟩ (by decide)

/-- Shared lemma: the retry loop performs at most `fuel + 1` sandbox
executions. -/
theorem processAttempts_executions_le (job : JobDescriptor)
    (envs : Nat → SandboxEnv) :
    ∀ fuel attempt st,
      (processAttempts job envs attempt fuel st).2.executions ≤
        st.executions + fuel + 1 := by
  intro fuel
  induction fuel with
  | zero =>
    intro attempt st
    cases hi : (classify (Run job (envs attempt)).result).isInfraError with
    | false => rw [processAttempts_terminal job envs attempt 0 st hi]
    | true =>
      obtain ⟨cause, hcl⟩ := Outcome.eq_infraError_of_isInfraError _ hi
      rw [processAttempts_deadLetter job envs attempt st cause hcl]
  | succ fuel ih =>
    intro attempt st
    cases hi : (classify (Run job (envs attempt)).result).isInfraError with
    | false =>
      rw [processAttempts_terminal job envs attempt (fuel + 1) st hi]
      simp
    | true =>
      obtain ⟨cause, hcl⟩ := Outcome.eq_infraError_of_isInfraError _ hi
      rw [processAttempts_retry job envs attempt fuel st cause hcl]
      have h := ih (attempt + 1) ⟨st.store, st.deadLetters, st.executions + 1⟩
      exact le_trans h (by simp; omega)

/-- Shared lemma: a permanent infra failure is issued only after the
whole retry budget was spent: exactly `fuel + 1` executions. -/
theorem processAttempts_permanent_executions (job : JobDescriptor)
    (envs : Nat → SandboxEnv) :
    ∀ fuel attempt st cause,
      (processAttempts job envs attempt fuel st).1 =
        .permanentInfraFailure cause →
      (processAttempts job envs attempt fuel st).2.executions =
        st.executions + fuel + 1 := by
  intro fuel
  induction fuel with
  | zero =>
    intro attempt st cause h
    cases hi : (classify (Run job (envs attempt)).result).isInfraError with
    | false =>
      rw [processAttempts_terminal job envs attempt 0 st hi] at h
      simp at h
    | true =>
      obtain ⟨c, hcl⟩ := Outcome.eq_infraError_of_isInfraError _ hi
      rw [processAttempts_deadLetter job envs attempt st c hcl]
  | succ fuel ih =>
    intro attempt st cause h
    cases hi : (classify (Run job (envs attempt)).result).isInfraError with
    | false =>
      rw [processAttempts_terminal job envs attempt (fuel + 1) st hi] at h
      simp at h
    | true =>
      obtain ⟨c, hcl⟩ := Outcome.eq_infraError_of_isInfraError _ hi
      rw [processAttempts_retry job envs attempt fuel st c hcl] at h ⊢
      have := ih (attempt + 1) ⟨st.store, st.deadLetters, st.executions + 1⟩ cause h
      simp at this ⊢
      omega

/-- Shared lemma: if every attempt's launch fails, the loop spends its
whole budget and dead-letters the job with a record. -/
theorem processAttempts_all_fail (job : JobDescriptor)
    (envs : Nat → SandboxEnv) (hf : ∀ k, (envs k).launchFailure ≠ none) :
    ∀ fuel attempt st, ∃ cause,
      processAttempts job envs attempt fuel st =
        (.permanentInfraFailure cause,
          ⟨st.store, (job, cause) :: st.deadLetters,
            st.executions + fuel + 1⟩) := by
  intro fuel
  induction fuel with
  | zero =>
    intro attempt st
    obtain ⟨c, hc⟩ := Option.ne_none_iff_exists'.mp (hf attempt)
    exact ⟨c, processAttempts_deadLetter job envs attempt st c
      (classify_Run_launchFailure job _ c hc)⟩
  | succ fuel ih =>
    intro attempt st
    obtain ⟨c, hc⟩ := Option.ne_none_iff_exists'.mp (hf attempt)
    obtain ⟨cause, hres⟩ :=
      ih (attempt + 1) ⟨st.store, st.deadLetters, st.executions + 1⟩
    refine ⟨cause, ?_⟩
    rw [processAttempts_retry job envs attempt fuel st c
      (classify_Run_launchFailure job _ c hc), hres]
    have harith : st.executions + 1 + fuel + 1 =
        st.executions + (fuel + 1) + 1 := by omega
    rw [harith]

/-- **C6.** The retry loop terminates: a job is executed at most the
configured maximum number of attempts; a permanent infra failure is
issued exactly when the whole budget was spent; and a job whose launch
fails on every attempt ends dead-lettered with an operator-facing
record — never dropped silently, never retried indefinitely. -/
theorem retry_loop_terminates (job : JobDescriptor) (envs : Nat → SandboxEnv)
    (maxAttempts : Nat) (st : WorkerState) (hmax : 1 ≤ maxAttempts) :
    (runJob job envs maxAttempts st).2.executions ≤
      st.executions + maxAttempts ∧
    (∀ cause,
      (runJob job envs maxAttempts st).1 = .permanentInfraFailure cause →
      (runJob job envs maxAttempts st).2.executions =
        st.executions + maxAttempts) ∧
    ((∀ k, (envs k).launchFailure ≠ none) → ∃ cause,
      (runJob job envs maxAttempts st).1 = .permanentInfraFailure cause ∧
      (job, cause) ∈ (runJob job envs maxAttempts st).2.deadLetters ∧
      (runJob job envs maxAttempts st).2.executions =
        st.executions + maxAttempts) := by
  unfold runJob
  have hsub : maxAttempts - 1 + 1 = maxAttempts := Nat.sub_add_cancel hmax
  refine ⟨?_, ?_, ?_⟩
  · have h := processAttempts_executions_le job envs (maxAttempts - 1) 1 st
    omega
  · intro cause h
    have := processAttempts_permanent_executions job envs
      (maxAttempts - 1) 1 st cause h
    omega
  · intro hf
    obtain ⟨cause, hres⟩ :=
      processAttempts_all_fail job envs hf (maxAttempts - 1) 1 st
    rw [hres]
    exact ⟨cause, rfl, by simp, by simp; omega⟩

/-- Witness for C6: a concrete always-failing job with a budget of two
attempts performs at most two executions. -/
theorem retry_loop_terminates_witness :
    1 ≤ 2 ∧
    (runJob sampleJob (fun _ => failingLaunchEnv) 2 ⟨[], [], 0⟩).2.executions ≤
      0 + 2 :=
  ⟨by decide, (retry_loop_terminates sampleJob (fun _ => failingLaunchEnv) 2
    ⟨[], [], 0⟩ (by decide)).1⟩

/-- **C8, counterexample.** The claim's metric names do not match the
code: the fully-qualified names registered at startup carry the
`worker` namespace, and the failed-logins counter ends in
`failed_logins`, so neither `auth_logins_failed_total` nor
`submissions_pushed_total` is part of the exposed surface. -/
theorem metrics_surface_counterexample :
    "auth_logins_failed_total" ∉ metricsSurface.map Prod.fst ∧
    "submissions_pushed_total" ∉ metricsSurface.map Prod.fst ∧
    fullName totalFailedLoginsVec.opts = "auth_logins_failed_logins" := by
  decide

/-- **C8, amended.** The metrics surface consists exactly of the
counters `worker_submissions_pushed_total` labeled task_id,
`worker_submissions_failed_total` labeled task_id and kind,
`worker_submissions_success_total` labeled task_id and kind, and
`auth_logins_failed_logins` with no labels; all are registered once at
startup under pairwise-distinct names, and a counter value is
monotonically non-decreasing under every sequence of counter
operations. -/
theorem metrics_surface_amended :
    metricsSurface =
      [("worker_submissions_pushed_total", ["task_id"]),
        ("worker_submissions_failed_total", ["task_id", "kind"]),
        ("worker_submissions_success_total", ["task_id", "kind"]),
        ("auth_logins_failed_logins", ([] : List String))] ∧
    (metricsSurface.map Prod.fst).Nodup ∧
    ∀ v ops, v ≤ applyCounterOps v ops := by
  refine ⟨by decide, by decide, ?_⟩
  intro v ops
  induction ops generalizing v with
  | nil => exact le_refl v
  | cons op t ih =>
    simp only [applyCounterOps, List.foldl_cons]
    refine le_trans ?_ (ih (applyCounterOp v op))
    cases op <;> simp [applyCounterOp]

/-- **C9.** Every account created through `CreateHandler` has
`Root = false` and a freshly generated 32-character confirm-email
token, regardless of the request body: adversarial root or token
fields in the request never reach the created record, and the store
gains exactly that record. -/
theorem create_account_never_root (store : List User)
    (data : CreateUserAccountRequest) (rand : Nat → Nat) (u : User)
    (hu : (CreateHandler store (some data) rand).created = some u) :
    u.root = false ∧
    u.confirmEmailToken = some (GenerateToken 32 rand) ∧
    (GenerateToken 32 rand).length = 32 ∧
    (CreateHandler store (some data) rand).store = store ++ [u] := by
  have hu' : createHandlerUser data rand = u := by
    simpa [CreateHandler] using hu
  subst hu'
  refine ⟨rfl, rfl, ?_, rfl⟩
  simp [GenerateToken, String.length]

/-- Witness for C9: the adversarial request carrying `root = true` and
its own token still yields a non-root record with a fresh 32-character
token. -/
theorem create_account_never_root_witness :
    (createHandlerUser adversarialCreateRequest (fun _ => 0)).root = false ∧
    (createHandlerUser adversarialCreateRequest
        (fun _ => 0)).confirmEmailToken =
      some (GenerateToken 32 (fun _ => 0)) ∧
    (GenerateToken 32 (fun _ => 0)).length = 32 ∧
    (CreateHandler [] (some adversarialCreateRequest) (fun _ => 0)).store =
      [] ++ [createHandlerUser adversarialCreateRequest (fun _ => 0)] :=
  create_account_never_root [] adversarialCreateRequest (fun _ => 0)
    (createHandlerUser adversarialCreateRequest (fun _ => 0)) rfl

/-- **C10.** `EditHandler` is atomic on authentication failure: with
the user loaded, a missing or non-matching `old_plain_password` yields
400 Bad Request with the store untouched and `Update` never invoked;
conversely, `Update` is only ever invoked after the old-password check
succeeded. -/
theorem edit_atomic_on_auth_failure (check : String → String → Bool)
    (store : List User) (loginID : Int) (data : AccountRequest)
    (rand : Nat → Nat) (updateOk : Bool) (user : User)
    (hget : storeGet store loginID = some user) :
    ((data.oldPlainPassword = "" ∨
        check data.oldPlainPassword user.encryptedPassword = false) →
      (EditHandler check store loginID (some data) rand updateOk).status
          = 400 ∧
      (EditHandler check store loginID (some data) rand updateOk).store
          = store ∧
      (EditHandler check store loginID (some data) rand updateOk).updateCalled
          = false) ∧
    ((EditHandler check store loginID (some data) rand updateOk).updateCalled
        = true →
      data.oldPlainPassword ≠ "" ∧
      check data.oldPlainPassword user.encryptedPassword = true) := by
  constructor
  · intro hbad
    by_cases hold : data.oldPlainPassword = ""
    · simp [EditHandler, hget, hold]
    · rcases hbad with hbad | hbad
      · exact absurd hbad hold
      · simp [EditHandler, hget, hold, hbad]
  · intro hupd
    by_cases hold : data.oldPlainPassword = ""
    · simp [EditHandler, hget, hold] at hupd
    · cases hchk : check data.oldPlainPassword user.encryptedPassword with
      | false => simp [EditHandler, hget, hold, hchk] at hupd
      | true => exact ⟨hold, rfl⟩

/-- Witness for C10: the concrete wrong-password PATCH against the
concrete stored user returns 400, leaves the store unchanged and never
invokes `Update`. -/
theorem edit_atomic_on_auth_failure_witness :
    (EditHandler sampleCheck [sampleUser] 1 (some wrongPasswordEdit)
        (fun _ => 0) true).status = 400 ∧
    (EditHandler sampleCheck [sampleUser] 1 (some wrongPasswordEdit)
        (fun _ => 0) true).store = [sampleUser] ∧
    (EditHandler sampleCheck [sampleUser] 1 (some wrongPasswordEdit)
        (fun _ => 0) true).updateCalled = false :=
  (edit_atomic_on_auth_failure sampleCheck [sampleUser] 1 wrongPasswordEdit
    (fun _ => 0) true sampleUser (by decide)).1 (Or.inr (by decide))

end Infomark
